import Mathlib

/-!
Verification development for the Yotpo → Shopify review synchronization engine.

The JavaScript sources are shallowly embedded as pure Lean functions:

* JS objects used as string-keyed maps (the sync cache's `reviews` object and
  the product mapper's `Map`s) are modelled as insertion-ordered association
  lists; setting an existing key replaces the value in place, setting a new
  key appends, matching JS object / `Map` semantics.
* The MD5 digest in `createReviewHash` is a deterministic function of the
  `JSON.stringify` serialization of the nine relevant fields; we model the
  fingerprint by the record of those fields itself (serialization is
  injective on this record, and digest collisions are abstracted away).
* Wall-clock reads (`new Date().toISOString()`) are modelled by a `now`
  string parameter threaded through a run.
* `decodeHtmlEntities` is modelled as the identity on strings; no claim
  inspects decoded text.
* JS floating point `toFixed(2)` / `parseFloat` rounding of averages is
  modelled exactly over ℚ as round-half-up to hundredths; binary-double
  representation artifacts are abstracted.
-/

/-- Insertion-ordered association list lookup (JS `obj[k]` / `Map.get`). -/
def alGet {α : Type} : List (String × α) → String → Option α
  | [], _ => none
  | (k', v') :: t, k => if k' = k then some v' else alGet t k

/-- Insertion-ordered association list write (JS `obj[k] = v` / `Map.set`):
an existing key keeps its position, a new key is appended. -/
def alSet {α : Type} : List (String × α) → String → α → List (String × α)
  | [], k, v => [(k, v)]
  | (k', v') :: t, k, v => if k' = k then (k, v) :: t else (k', v') :: alSet t k v

/-- A Yotpo review record as consumed by the sync engine.  Fields that may be
absent in the JSON payload are `Option`s; JS truthiness of a string field is
"present and non-empty". -/
structure Review where
  id : Nat
  score : Option Int
  title : Option String
  content : Option String
  name : Option String
  email : Option String
  sentiment : Option String
  votes_up : Option Int
  votes_down : Option Int
  deleted : Option Bool
  archived : Option Bool
  created_at : Option String
  updated_at : Option String
  sku : Option String
deriving DecidableEq, Repr

/-- The review id rendered as a string (JS `review.id.toString()`). -/
def idStr (r : Review) : String := toString r.id

/-- The nine display-relevant fields serialized (and then MD5-digested) by
`SyncCache.createReviewHash`; the digest is modelled by this record itself. -/
structure RelevantFields where
  score : Option Int
  title : Option String
  content : Option String
  name : Option String
  votes_up : Option Int
  votes_down : Option Int
  deleted : Option Bool
  archived : Option Bool
  updated_at : Option String
deriving DecidableEq, Repr

/-- `SyncCache.createReviewHash`: the change-detection fingerprint of a
review, a function of exactly the nine display-relevant fields. -/
def createReviewHash (r : Review) : RelevantFields :=
  { score := r.score
    title := r.title
    content := r.content
    name := r.name
    votes_up := r.votes_up
    votes_down := r.votes_down
    deleted := r.deleted
    archived := r.archived
    updated_at := r.updated_at }

/-- One entry of the persisted sync-cache document. -/
structure CacheEntry where
  hash : RelevantFields
  lastSynced : String
deriving DecidableEq, Repr

/-- The persisted sync-cache document. -/
structure Cache where
  lastSync : Option String
  reviews : List (String × CacheEntry)
deriving DecidableEq, Repr

/-- `SyncCache.createEmptyCache`. -/
def createEmptyCache : Cache := { lastSync := none, reviews := [] }

/-- `SyncCache.needsSync`: true iff the review id is absent from the cache
or the stored fingerprint differs from the freshly computed one. -/
def needsSync (c : Cache) (r : Review) : Bool :=
  match alGet c.reviews (idStr r) with
  | none => true
  | some e => decide (e.hash ≠ createReviewHash r)

/-- `SyncCache.markSynced`: store the review's fingerprint and the current
wall-clock time under its id, replacing any prior entry. -/
def markSynced (c : Cache) (r : Review) (now : String) : Cache :=
  { c with reviews := alSet c.reviews (idStr r) { hash := createReviewHash r, lastSynced := now } }

/-- `SyncCache.updateLastSyncTime`. -/
def updateLastSyncTime (c : Cache) (now : String) : Cache :=
  { c with lastSync := some now }

/-- JS truthiness of an optional string: present and non-empty. -/
def strTruthy : Option String → Bool
  | none => false
  | some s => decide (s ≠ "")

/-- `shouldSyncReview`: active (neither deleted nor archived) and all of
id, score, title, content, sku truthy. -/
def shouldSyncReview (r : Review) : Bool :=
  let isActive := !(r.deleted.getD false) && !(r.archived.getD false)
  let hasRequiredFields :=
    decide (r.id ≠ 0) && decide (r.score.getD 0 ≠ 0) &&
    strTruthy r.title && strTruthy r.content && strTruthy r.sku
  isActive && hasRequiredFields

/-- `transformYotpoReview`: destination field set for one review.
`decodeHtmlEntities` is modelled as the identity; the `synced_at` wall-clock
read is the `now` parameter; the `created_date` ISO round-trip keeps the
first ten characters (the `YYYY-MM-DD` part) of an ISO-8601 input.
Returns (fields, isBrandReview, isActive). -/
def transformYotpoReview (r : Review) (productId : Option String) (now : String) :
    List (String × String) × Bool × Bool :=
  let isBrandReview : Bool := decide (r.sku = some "yotpo_site_reviews")
  let isActive : Bool := !(r.deleted.getD false) && !(r.archived.getD false)
  let base : List (String × String) :=
    [("yotpo_id", idStr r),
     ("rating", toString (r.score.getD 0)),
     ("title", r.title.getD ""),
     ("content", r.content.getD ""),
     ("reviewer_name", if (r.name.getD "") = "" then "Anonymous" else r.name.getD ""),
     ("is_active", if isActive then "true" else "false"),
     ("synced_at", now)]
  let f1 := if strTruthy r.email then base ++ [("reviewer_email", r.email.getD "")] else base
  let f2 := if strTruthy r.created_at then f1 ++ [("created_date", (r.created_at.getD "").take 10)] else f1
  let f3 := match r.sentiment with
    | some s => f2 ++ [("sentiment_score", s)]
    | none => f2
  let f4 := match r.votes_up with
    | some v => f3 ++ [("helpful_votes", toString v)]
    | none => f3
  let f5 :=
    if isBrandReview then f4
    else
      let f := f4 ++ [("product_sku", r.sku.getD "")]
      match productId with
      | some pid => if pid = "" then f else f ++ [("product_reference", pid)]
      | none => f
  (f5, isBrandReview, isActive)

/-- The grouping key used by the statistics calculator:
`review.sku || 'unknown'`. -/
def skuOf (r : Review) : String :=
  match r.sku with
  | some s => if s = "" then "unknown" else s
  | none => "unknown"

/-- The rating used by the statistics calculator: `review.score || 0`. -/
def ratingOf (r : Review) : Int := r.score.getD 0

/-- The five star-bucket counters. -/
structure StarCounts where
  s5 : Nat := 0
  s4 : Nat := 0
  s3 : Nat := 0
  s2 : Nat := 0
  s1 : Nat := 0
deriving DecidableEq, Repr

/-- `starCounts[rating]++` guarded by `1 <= rating <= 5`. -/
def bump (c : StarCounts) (x : Int) : StarCounts :=
  if x = 5 then { c with s5 := c.s5 + 1 }
  else if x = 4 then { c with s4 := c.s4 + 1 }
  else if x = 3 then { c with s3 := c.s3 + 1 }
  else if x = 2 then { c with s2 := c.s2 + 1 }
  else if x = 1 then { c with s1 := c.s1 + 1 }
  else c

/-- The per-group accumulator of `calculateReviewStatistics`. -/
structure GroupData where
  ratings : List Int := []
  counts : StarCounts := {}
deriving DecidableEq, Repr

/-- Push one rating into a group (`ratings.push` plus the bucket bump). -/
def updGroup (g : GroupData) (x : Int) : GroupData :=
  { ratings := g.ratings ++ [x], counts := bump g.counts x }

/-- Insert a review's rating into the grouped accumulator, initializing the
group on first sight of the key (JS `if (!statsByProduct[sku]) ...`). -/
def alUpd : List (String × GroupData) → String → Int → List (String × GroupData)
  | [], k, x => [(k, updGroup {} x)]
  | (k', g) :: t, k, x => if k' = k then (k, updGroup g x) :: t else (k', g) :: alUpd t k x

/-- JS `toFixed(2)` followed by `parseFloat`, over ℚ: round half up to
hundredths (per ECMA toFixed, ties pick the larger candidate). -/
def toFixed2 (q : ℚ) : ℚ := ((⌊q * 100 + 1/2⌋ : ℤ) : ℚ) / 100

/-- One statistics record (JS object built by `calculateReviewStatistics`
and `calculateGlobalStatistics`). -/
structure ProductStats where
  productSku : String
  averageRating : ℚ
  totalReviews : Nat
  fiveStarCount : Nat
  fourStarCount : Nat
  threeStarCount : Nat
  twoStarCount : Nat
  oneStarCount : Nat
  lastUpdated : String
deriving DecidableEq, Repr

/-- Build the final record of one group. -/
def mkProductStats (sku : String) (g : GroupData) (now : String) : ProductStats :=
  { productSku := sku
    averageRating :=
      if g.ratings.length > 0 then toFixed2 ((g.ratings.sum : ℚ) / (g.ratings.length : ℚ)) else 0
    totalReviews := g.ratings.length
    fiveStarCount := g.counts.s5
    fourStarCount := g.counts.s4
    threeStarCount := g.counts.s3
    twoStarCount := g.counts.s2
    oneStarCount := g.counts.s1
    lastUpdated := now }

/-- `calculateReviewStatistics`: group the reviews by `skuOf`, accumulate
ratings and buckets, then map each group to its record.  Returns the
insertion-ordered key → record association list (`{}` on empty input). -/
def calculateReviewStatistics (reviews : List Review) (now : String) :
    List (String × ProductStats) :=
  if reviews.isEmpty then []
  else
    let groups := reviews.foldl (fun acc r => alUpd acc (skuOf r) (ratingOf r)) []
    groups.map (fun p => (p.1, mkProductStats p.1 p.2 now))

/-- `calculateGlobalStatistics`: one record over the whole input with the
reserved `_global_all_reviews` key. -/
def calculateGlobalStatistics (reviews : List Review) (now : String) : ProductStats :=
  if reviews.isEmpty then
    { productSku := "_global_all_reviews", averageRating := 0, totalReviews := 0
      fiveStarCount := 0, fourStarCount := 0, threeStarCount := 0, twoStarCount := 0
      oneStarCount := 0, lastUpdated := now }
  else
    let totalRating : Int := reviews.foldl (fun s r => s + ratingOf r) 0
    let counts : StarCounts := reviews.foldl (fun c r => bump c (ratingOf r)) {}
    { productSku := "_global_all_reviews"
      averageRating :=
        if reviews.length > 0 then toFixed2 ((totalRating : ℚ) / (reviews.length : ℚ)) else 0
      totalReviews := reviews.length
      fiveStarCount := counts.s5
      fourStarCount := counts.s4
      threeStarCount := counts.s3
      twoStarCount := counts.s2
      oneStarCount := counts.s1
      lastUpdated := now }

/-- `transformStatisticsToMetaobject`: the destination field list of one
statistics record (numeric values rendered as strings). -/
def transformStatisticsToMetaobject (s : ProductStats) : List (String × String) :=
  [("product_sku", s.productSku),
   ("average_rating", toString s.averageRating),
   ("total_reviews", toString s.totalReviews),
   ("five_star_count", toString s.fiveStarCount),
   ("four_star_count", toString s.fourStarCount),
   ("three_star_count", toString s.threeStarCount),
   ("two_star_count", toString s.twoStarCount),
   ("one_star_count", toString s.oneStarCount),
   ("last_updated", s.lastUpdated)]

/-- Destination-side product data stored in the lookup maps. -/
structure ProductData where
  productId : String
  productTitle : String
  variantIds : List String
deriving DecidableEq, Repr

/-- The entity resolver's state: the two lookup maps and the build flag. -/
structure MapperState where
  skuToProductCache : List (String × ProductData) := []
  idToProductCache : List (String × ProductData) := []
  cacheFetched : Bool := false
deriving DecidableEq, Repr

/-- One variant node of a catalog page. -/
structure VariantNode where
  id : String
  sku : Option String
deriving DecidableEq, Repr

/-- One product node of a catalog page. -/
structure ProductNode where
  id : String
  title : String
  variants : List VariantNode
deriving DecidableEq, Repr

/-- Last `/`-separated component of a character list (what
`gid.split('/')` followed by `parts[parts.length - 1]` computes). -/
def lastComponentAux : List Char → List Char → List Char
  | acc, [] => acc
  | acc, c :: t => if c = '/' then lastComponentAux [] t else lastComponentAux (acc ++ [c]) t

/-- `ProductMapper.extractNumericId`: last `/`-separated component of the
GID, `null` on a falsy input. -/
def extractNumericId (gid : String) : Option String :=
  if gid = "" then none else some (String.mk (lastComponentAux [] gid.toList))

/-- Index one product into both lookup maps (numeric-id key if the extracted
id is truthy, one SKU key per variant with a truthy SKU).  The JS mutates a
single shared `productData` object; its completed value is what both maps
hold. -/
def indexProduct (st : MapperState) (p : ProductNode) : MapperState :=
  let pd : ProductData :=
    { productId := p.id, productTitle := p.title, variantIds := p.variants.map (fun v => v.id) }
  let st1 :=
    match extractNumericId p.id with
    | some nid =>
        if nid = "" then st
        else { st with idToProductCache := alSet st.idToProductCache nid pd }
    | none => st
  p.variants.foldl
    (fun s v =>
      match v.sku with
      | some sk =>
          if sk = "" then s
          else { s with skuToProductCache := alSet s.skuToProductCache sk pd }
      | none => s)
    st1

/-- The paginated catalog fetch loop of `buildProductCache`: each list item
is one page fetch, `none` standing for a thrown page-fetch error.  Returns
the resulting state and whether the build threw.  On an error the loop
rethrows immediately: pages already indexed stay in the maps and
`cacheFetched` stays false. -/
def buildPages : MapperState → List (Option (List ProductNode)) → MapperState × Bool
  | st, [] => ({ st with cacheFetched := true }, false)
  | st, none :: _ => (st, true)
  | st, some ps :: rest => buildPages (ps.foldl indexProduct st) rest

/-- `ProductMapper.buildProductCache`: a no-op once `cacheFetched` is set,
otherwise the paginated build. -/
def buildProductCache (st : MapperState) (pages : List (Option (List ProductNode))) :
    MapperState × Bool :=
  if st.cacheFetched then (st, false) else buildPages st pages

/-- `ProductMapper.getProductIdBySku`: none for falsy keys and the brand
sentinel; otherwise variant-SKU map first, then numeric-id map. -/
def getProductIdBySku (m : MapperState) (yotpoSku : Option String) : Option String :=
  match yotpoSku with
  | none => none
  | some s =>
    if s = "" ∨ s = "yotpo_site_reviews" then none
    else
      match alGet m.skuToProductCache s with
      | some p => some p.productId
      | none =>
        match alGet m.idToProductCache s with
        | some p => some p.productId
        | none => none

/-- `ProductMapper.getProductDetailsBySku`: same resolution, tagged with the
map that satisfied it. -/
def getProductDetailsBySku (m : MapperState) (yotpoSku : Option String) :
    Option (ProductData × String) :=
  match yotpoSku with
  | none => none
  | some s =>
    if s = "" ∨ s = "yotpo_site_reviews" then none
    else
      match alGet m.skuToProductCache s with
      | some p => some (p, "variant_sku")
      | none =>
        match alGet m.idToProductCache s with
        | some p => some (p, "product_id")
        | none => none

/-- One response of the Yotpo reviews endpoint as seen by `getAllReviews`. -/
inductive FetchResp
  | ok (reviews : List Review)
  | unauthorized
  | httpError
deriving DecidableEq, Repr

/-- The Yotpo client's credential state. -/
structure YotpoState where
  appSecret : Option String
  token : Option String
deriving DecidableEq, Repr

/-- Failure modes of one `getAllReviews` call.  `serverExhausted` is a model
artifact: the supplied response trace ran out while the code was still
retrying (the real code would keep going). -/
inductive CallError
  | authFailed
  | httpFailed
  | serverExhausted
deriving DecidableEq, Repr

/-- `YotpoClient.authenticate`: returns the held token unchanged when one is
present (no fresh authentication happens), otherwise exchanges the secret
for `authResp`'s token, throwing when no secret or no grant. -/
def authenticate (st : YotpoState) (authResp : Option String) :
    Except CallError (YotpoState × String) :=
  match st.token with
  | some t => Except.ok (st, t)
  | none =>
    match st.appSecret with
    | none => Except.error CallError.authFailed
    | some _ =>
      match authResp with
      | some t => Except.ok ({ st with token := some t }, t)
      | none => Except.error CallError.authFailed

/-- The fetch/retry loop of `getAllReviews`: consume the next planned server
response; 401 re-authenticates (a no-op whenever a token is held) and
retries; any other non-success throws.  The Nat counts fetch attempts made
so far; a success returns the page and the total attempt count. -/
def getAllReviewsGo (authResp : Option String) (st : YotpoState) :
    List FetchResp → Nat → Except CallError (List Review × Nat)
  | [], _ => Except.error CallError.serverExhausted
  | FetchResp.ok d :: _, n => Except.ok (d, n + 1)
  | FetchResp.httpError :: _, _ => Except.error CallError.httpFailed
  | FetchResp.unauthorized :: rest, n =>
    match authenticate st authResp with
    | Except.error e => Except.error e
    | Except.ok (st', _) => getAllReviewsGo authResp st' rest (n + 1)

/-- `YotpoClient.getAllReviews`: authenticate first when no token is held,
then the fetch/retry loop over the planned server responses. -/
def getAllReviews (st : YotpoState) (authResp : Option String) (resps : List FetchResp) :
    Except CallError (List Review × Nat) :=
  match st.token with
  | some _ => getAllReviewsGo authResp st resps 0
  | none =>
    match authenticate st authResp with
    | Except.error e => Except.error e
    | Except.ok (st', _) => getAllReviewsGo authResp st' resps 0

/-- Outcome of one remote metaobject mutation: accepted, rejected with
user-facing validation errors, or a thrown exception. -/
inductive UpsertRes
  | ok
  | userErrors
  | exception
deriving DecidableEq, Repr

/-- Observable operations the run issues, plus cache-marking events.
`create`/`update`/`findStats`/`listPages` are destination (Shopify)
operations; `marked` records a `markSynced` call. -/
inductive Ev
  | create (t id : String) (fields : List (String × String))
  | update (t id : String) (fields : List (String × String))
  | listPages (what : String)
  | findStats (sku : String)
  | marked (id : String)
deriving DecidableEq, Repr

/-- Per-path counters of the run summary. -/
structure PathStats where
  created : Nat := 0
  updated : Nat := 0
  skipped : Nat := 0
  errors : Nat := 0
  matched : Nat := 0
  notFound : Nat := 0
deriving DecidableEq, Repr

/-- The environment of one run: the completed product lookup maps, the
destination objects existing at run start (as (type, identity-value) pairs),
and the remote acceptance of each mutation. -/
structure Env where
  mapper : MapperState
  existing0 : List (String × String)
  upsertRes : String → Review → UpsertRes
  statsRes : String → UpsertRes

/-- State threaded through the per-review upsert loops. -/
structure SyncState where
  cache : Cache
  existing : List (String × String)
  evs : List Ev
  ps : PathStats

/-- `ShopifyClient.upsertMetaobject` plus the surrounding bookkeeping of the
sync loop: find by identity (from the prebuilt metaobject cache), create or
update accordingly; on acceptance count the operation, mark the review
synced and record the new object; on validation errors or an exception
count one error and leave the cache untouched. -/
def upsertPart (env : Env) (now : String) (t : String) (fields : List (String × String))
    (r : Review) (st : SyncState) : SyncState :=
  let idS := idStr r
  let isEx := st.existing.contains (t, idS)
  let ev := if isEx then Ev.update t idS fields else Ev.create t idS fields
  match env.upsertRes t r with
  | UpsertRes.ok =>
    { cache := markSynced st.cache r now
      existing := if isEx then st.existing else st.existing ++ [(t, idS)]
      evs := st.evs ++ [ev, Ev.marked idS]
      ps :=
        if isEx then { st.ps with updated := st.ps.updated + 1 }
        else { st.ps with created := st.ps.created + 1 } }
  | UpsertRes.userErrors =>
    { st with evs := st.evs ++ [ev], ps := { st.ps with errors := st.ps.errors + 1 } }
  | UpsertRes.exception =>
    { st with evs := st.evs ++ [ev], ps := { st.ps with errors := st.ps.errors + 1 } }

/-- One iteration of the per-review loop.  On the product path the entity is
resolved first: an unresolved key is a skip (counted as a mismatch), a
resolved one is counted as matched and upserted with the product reference;
the brand path upserts directly with no product id. -/
def stepReview (isProduct : Bool) (env : Env) (now : String) (st : SyncState) (r : Review) :
    SyncState :=
  if isProduct then
    match getProductIdBySku env.mapper r.sku with
    | none =>
      { st with ps := { st.ps with skipped := st.ps.skipped + 1, notFound := st.ps.notFound + 1 } }
    | some pid =>
      let st1 := { st with ps := { st.ps with matched := st.ps.matched + 1 } }
      upsertPart env now "yotpo_product_review" (transformYotpoReview r (some pid) now).1 r st1
  else
    upsertPart env now "yotpo_brand_review" (transformYotpoReview r none now).1 r st

/-- The per-review loop over one path's review list. -/
def processReviews (isProduct : Bool) (env : Env) (now : String) :
    SyncState → List Review → SyncState
  | st, [] => st
  | st, r :: rs => processReviews isProduct env now (stepReview isProduct env now st r) rs

/-- State threaded through the statistics upsert loop. -/
structure StatsState where
  existing : List (String × String)
  evs : List Ev
  created : Nat
  updated : Nat
  errors : Nat

/-- One statistics upsert: remote find by `product_sku`, then create or
update; failures are counted and leave the known-object set unchanged. -/
def statsUpsertStep (env : Env) (ss : StatsState) (sku : String) (ps : ProductStats) :
    StatsState :=
  let t := "yotpo_review_statistics"
  let isEx := ss.existing.contains (t, sku)
  let fields := transformStatisticsToMetaobject ps
  let ev := if isEx then Ev.update t sku fields else Ev.create t sku fields
  let ss1 := { ss with evs := ss.evs ++ [Ev.findStats sku, ev] }
  match env.statsRes sku with
  | UpsertRes.ok =>
    if isEx then { ss1 with updated := ss1.updated + 1 }
    else { ss1 with existing := ss1.existing ++ [(t, sku)], created := ss1.created + 1 }
  | UpsertRes.userErrors => { ss1 with errors := ss1.errors + 1 }
  | UpsertRes.exception => { ss1 with errors := ss1.errors + 1 }

/-- `syncStatistics`: per-entity records over the full active set in group
order, then the global record. -/
def runStatsPhase (env : Env) (now : String) (reviews : List Review)
    (ex : List (String × String)) : StatsState :=
  let per := calculateReviewStatistics reviews now
  let ss0 : StatsState := { existing := ex, evs := [], created := 0, updated := 0, errors := 0 }
  let ss1 := per.foldl (fun ss p => statsUpsertStep env ss p.1 p.2) ss0
  statsUpsertStep env ss1 "_global_all_reviews" (calculateGlobalStatistics reviews now)

/-- The run summary together with the saved cache document (none when the
run exited before persisting) and the operation trace. -/
structure RunOutcome where
  total : Nat
  filteredOut : Nat
  cachedUnchanged : Nat
  product : PathStats
  brand : PathStats
  statsCreated : Nat
  statsUpdated : Nat
  statsErrors : Nat
  savedCache : Option Cache
  trace : List Ev
deriving Repr

/-- `syncReviews`, the sync orchestrator over one run: fetch (the feed is
the fetched review list), filter active+syncable, diff against the cache
(empty diff: stamp `lastSync`, persist, stop, touching nothing remote),
build the lookup caches, partition product/brand, upsert per review,
persist the cache, then sync statistics over the full active set. -/
def runSync (feed : List Review) (c0 : Cache) (env : Env) (now : String) : RunOutcome :=
  let active := feed.filter shouldSyncReview
  if active.isEmpty then
    { total := feed.length, filteredOut := feed.length, cachedUnchanged := 0
      product := {}, brand := {}, statsCreated := 0, statsUpdated := 0, statsErrors := 0
      savedCache := none, trace := [] }
  else
    let toSync := active.filter (fun r => needsSync c0 r)
    if toSync.isEmpty then
      { total := feed.length, filteredOut := feed.length - active.length
        cachedUnchanged := active.length
        product := {}, brand := {}, statsCreated := 0, statsUpdated := 0, statsErrors := 0
        savedCache := some (updateLastSyncTime c0 now), trace := [] }
    else
      let buildEvs := [Ev.listPages "products", Ev.listPages "yotpo_product_review",
        Ev.listPages "yotpo_brand_review"]
      let productReviews := toSync.filter (fun r => decide (r.sku ≠ some "yotpo_site_reviews"))
      let brandReviews := toSync.filter (fun r => decide (r.sku = some "yotpo_site_reviews"))
      let st0 : SyncState := { cache := c0, existing := env.existing0, evs := [], ps := {} }
      let s1 := processReviews true env now st0 productReviews
      let s2 := processReviews false env now { s1 with ps := {} } brandReviews
      let savedC := updateLastSyncTime s2.cache now
      let ss := runStatsPhase env now active s2.existing
      { total := feed.length, filteredOut := feed.length - active.length
        cachedUnchanged := active.length - toSync.length
        product := s1.ps, brand := s2.ps
        statsCreated := ss.created, statsUpdated := ss.updated, statsErrors := ss.errors
        savedCache := some savedC
        trace := buildEvs ++ s2.evs ++ ss.evs }

/-- The ratings of the reviews a given statistics key groups, in feed
order: the declarative counterpart of the grouping fold. -/
def groupRatings (rs : List Review) (k : String) : List Int :=
  (rs.filter (fun r => decide (skuOf r = k))).map ratingOf

/-- The review ids `markSynced` was called on, in call order, read off an
event trace. -/
def marksOf (evs : List Ev) : List String :=
  evs.filterMap (fun e => match e with | Ev.marked i => some i | _ => none)

/-- A syncable product-path review with id `i`, title `t` and SKU "S". -/
def exReview (i : Nat) (t : String) : Review :=
  { id := i, score := some 5, title := some t, content := some "c", name := none
    email := none, sentiment := none, votes_up := none, votes_down := none
    deleted := none, archived := none, created_at := none, updated_at := none
    sku := some "S" }

/-- A syncable brand review (association key is the sentinel). -/
def exBrandReview : Review :=
  { id := 7, score := some 5, title := some "t", content := some "c", name := none
    email := none, sentiment := none, votes_up := none, votes_down := none
    deleted := none, archived := none, created_at := none, updated_at := none
    sku := some "yotpo_site_reviews" }

/-- A product lookup state resolving SKU "S". -/
def exMapper : MapperState :=
  { skuToProductCache := [("S", { productId := "gid-product-1", productTitle := "P", variantIds := [] })] }

/-- An environment whose destination accepts every mutation. -/
def exEnv : Env :=
  { mapper := exMapper, existing0 := [], upsertRes := fun _ _ => UpsertRes.ok
    statsRes := fun _ => UpsertRes.ok }

/-- Two feed entries sharing id 1 with different display content. -/
def exFeedDup : List Review := [exReview 1 "A", exReview 1 "B"]

/-- The cache document the first run over `exFeedDup` persists. -/
def exCache1 : Cache :=
  { lastSync := some "t1"
    reviews := [("1", { hash := createReviewHash (exReview 1 "B"), lastSynced := "t1" })] }

/-- A catalog product node with one variant carrying SKU "SKU1". -/
def exProductNode : ProductNode :=
  { id := "gid://shopify/Product/11", title := "P"
    variants := [{ id := "v1", sku := some "SKU1" }] }

/-- A lookup state where "77" is both a known variant SKU and a known
numeric product id, mapping to different products. -/
def exMapperBoth : MapperState :=
  { skuToProductCache := [("77", { productId := "gid-by-sku", productTitle := "A", variantIds := [] })]
    idToProductCache := [("77", { productId := "gid-by-id", productTitle := "B", variantIds := [] })] }

/-- A cache holding the current fingerprint of review 3 (C1 witness input). -/
def exCacheC1 : Cache :=
  { lastSync := none
    reviews := [("3", { hash := createReviewHash (exReview 3 "A"), lastSynced := "t0" })] }

/-- An environment whose destination rejects exactly the review with id 2. -/
def exEnvFail2 : Env :=
  { mapper := exMapper, existing0 := []
    upsertRes := fun _ r => if r.id = 2 then UpsertRes.userErrors else UpsertRes.ok
    statsRes := fun _ => UpsertRes.ok }

/-- A one-review feed with distinct ids (trivially id-consistent). -/
def exFeedOne : List Review := [exReview 1 "A"]

/-- The cache document the first run over `exFeedOne` persists. -/
def exCache1W : Cache :=
  { lastSync := some "t1"
    reviews := [("1", { hash := createReviewHash (exReview 1 "A"), lastSynced := "t1" })] }

/-- Five product-path reviews for SKU "A" with ratings 5, 5, 4, 3, 1. -/
def exFiveReviews : List Review :=
  [{ exReview 11 "t" with sku := some "A" }, { exReview 12 "t" with sku := some "A" },
   { exReview 13 "t" with score := some 4, sku := some "A" },
   { exReview 14 "t" with score := some 3, sku := some "A" },
   { exReview 15 "t" with score := some 1, sku := some "A" }]

theorem alGet_alSet {α : Type} (l : List (String × α)) (k k' : String) (v : α) :
    alGet (alSet l k v) k' = if k' = k then some v else alGet l k' := by
  induction l with
  | nil =>
    simp only [alSet, alGet]
    by_cases h : k = k'
    · subst h; simp
    · rw [if_neg h, if_neg (Ne.symm h)]
  | cons hd tl ih =>
    obtain ⟨k0, v0⟩ := hd
    simp only [alSet]
    by_cases h0 : k0 = k
    · rw [if_pos h0]
      subst h0
      simp only [alGet]
      by_cases h : k0 = k'
      · subst h; simp
      · rw [if_neg h, if_neg (Ne.symm h), if_neg h]
    · rw [if_neg h0]
      simp only [alGet, ih]
      by_cases h1 : k0 = k'
      · subst h1
        simp [h0]
      · simp [h1]

theorem needsSync_false_iff (c : Cache) (r : Review) :
    needsSync c r = false ↔
      ∃ e, alGet c.reviews (idStr r) = some e ∧ e.hash = createReviewHash r := by
  rcases h : alGet c.reviews (idStr r) with _ | e <;> simp [needsSync, h]

/-- Claim C1. For every review and cache state, `needsSync` is true iff the
review's id string is absent from the cache's reviews map or the stored
fingerprint differs from the one freshly computed over exactly the nine
display-relevant fields; consequently two reviews differing only in
`email` or `sentiment` get the same `needsSync` answer. -/
theorem needsSync_spec (c : Cache) (r : Review) :
    (needsSync c r = true ↔
      alGet c.reviews (idStr r) = none ∨
        ∃ e, alGet c.reviews (idStr r) = some e ∧ e.hash ≠ createReviewHash r) ∧
    (∀ r' : Review, r'.id = r.id → r'.score = r.score → r'.title = r.title →
      r'.content = r.content → r'.name = r.name → r'.votes_up = r.votes_up →
      r'.votes_down = r.votes_down → r'.deleted = r.deleted → r'.archived = r.archived →
      r'.created_at = r.created_at → r'.updated_at = r.updated_at → r'.sku = r.sku →
      needsSync c r' = needsSync c r) := by
  constructor
  · rcases h : alGet c.reviews (idStr r) with _ | e <;> simp [needsSync, h]
  · intro r' h1 h2 h3 h4 h5 h6 h7 h8 h9 h10 h11 h12
    have hid : idStr r' = idStr r := by simp [idStr, h1]
    have hh : createReviewHash r' = createReviewHash r := by
      simp [createReviewHash, h2, h3, h4, h5, h6, h7, h8, h9, h11]
    simp [needsSync, hid, hh]

theorem needsSync_spec_witness :
    needsSync exCacheC1 { exReview 3 "A" with email := some "x", sentiment := some "0.5" } =
      needsSync exCacheC1 (exReview 3 "A") :=
  (needsSync_spec exCacheC1 (exReview 3 "A")).2
    { exReview 3 "A" with email := some "x", sentiment := some "0.5" }
    rfl rfl rfl rfl rfl rfl rfl rfl rfl rfl rfl rfl

/-- Claim C10. Round-trip of the change-detection cache: immediately after
`markSynced(R)`, `needsSync(R)` on the unmodified review is false, for
every prior cache state (whether or not R was cached before). -/
theorem markSynced_needsSync_roundtrip (c : Cache) (r : Review) (now : String) :
    needsSync (markSynced c r now) r = false := by
  simp [needsSync, markSynced, alGet_alSet]

/-- Claim C6. Resolution priority: a key present both as a variant SKU and as a
numeric entity id resolves to the SKU-map match (for both lookup entry
points, the details call tagged "variant_sku"); the brand sentinel and
empty/missing keys resolve to none for every map state, i.e. without
consulting either map. -/
theorem resolution_priority :
    (∀ (m : MapperState) (k : String) (pS pI : ProductData),
        k ≠ "" → k ≠ "yotpo_site_reviews" →
        alGet m.skuToProductCache k = some pS →
        alGet m.idToProductCache k = some pI →
        getProductIdBySku m (some k) = some pS.productId ∧
        getProductDetailsBySku m (some k) = some (pS, "variant_sku")) ∧
    (∀ m : MapperState,
        getProductIdBySku m none = none ∧
        getProductIdBySku m (some "") = none ∧
        getProductIdBySku m (some "yotpo_site_reviews") = none ∧
        getProductDetailsBySku m none = none ∧
        getProductDetailsBySku m (some "") = none ∧
        getProductDetailsBySku m (some "yotpo_site_reviews") = none) := by
  constructor
  · intro m k pS pI hne hsent hsku _hid
    constructor <;> simp [getProductIdBySku, getProductDetailsBySku, hne, hsent, hsku]
  · intro m
    refine ⟨rfl, ?_, ?_, rfl, ?_, ?_⟩ <;>
      simp [getProductIdBySku, getProductDetailsBySku]

theorem resolution_priority_witness :
    getProductIdBySku exMapperBoth (some "77") = some "gid-by-sku" ∧
    getProductDetailsBySku exMapperBoth (some "77") =
      some ({ productId := "gid-by-sku", productTitle := "A", variantIds := [] }, "variant_sku") :=
  (resolution_priority.1 exMapperBoth "77"
    { productId := "gid-by-sku", productTitle := "A", variantIds := [] }
    { productId := "gid-by-id", productTitle := "B", variantIds := [] }
    (by decide) (by decide) rfl rfl)

theorem getAllReviewsGo_replicate (n m : Nat) :
    getAllReviewsGo (some "new") { appSecret := none, token := some "tok" }
      (List.replicate n FetchResp.unauthorized ++ [FetchResp.ok []]) m =
      Except.ok ([], m + n + 1) := by
  induction n generalizing m with
  | zero => rfl
  | succ j ih =>
    have : m + 1 + j + 1 = m + (j + 1) + 1 := by omega
    simp only [List.replicate_succ, List.cons_append, getAllReviewsGo, authenticate,
      List.append_eq]
    rw [ih, this]

/-- Claim C9, evaluated on the code. The code's 401 handling at a concrete failing input:
holding token "tok" against a server answering 401, 401, then 200, the
single `getAllReviews` call performs three fetch attempts (two retries) and
succeeds; in general, n consecutive 401 responses produce n + 1 fetch
attempts within the one call, with no per-call bound — and since a token is
held, `authenticate` returns it unchanged, so no re-authentication ever
happens on the retry path. -/
theorem getAllReviews_retries_unbounded :
    getAllReviews { appSecret := none, token := some "tok" } (some "new")
        [FetchResp.unauthorized, FetchResp.unauthorized, FetchResp.ok []] =
      Except.ok ([], 3) ∧
    ∀ n : Nat,
      getAllReviews { appSecret := none, token := some "tok" } (some "new")
          (List.replicate n FetchResp.unauthorized ++ [FetchResp.ok []]) =
        Except.ok ([], n + 1) := by
  constructor
  · rfl
  · intro n
    have h := getAllReviewsGo_replicate n 0
    simpa [getAllReviews] using h

theorem foldl_preserve_cacheFetched {β : Type} (f : MapperState → β → MapperState)
    (hf : ∀ s b, (f s b).cacheFetched = s.cacheFetched) :
    ∀ (l : List β) (s : MapperState), (List.foldl f s l).cacheFetched = s.cacheFetched := by
  intro l
  induction l with
  | nil => intro s; rfl
  | cons b t ih =>
    intro s
    simp only [List.foldl]
    rw [ih, hf]

theorem indexProduct_cacheFetched (st : MapperState) (p : ProductNode) :
    (indexProduct st p).cacheFetched = st.cacheFetched := by
  unfold indexProduct
  rw [foldl_preserve_cacheFetched]
  · cases h : extractNumericId p.id with
    | none => rfl
    | some nid => by_cases hn : nid = "" <;> simp [h, hn]
  · intro s v
    cases hv : v.sku with
    | none => rfl
    | some sk => by_cases hs : sk = "" <;> simp [hv, hs]

theorem buildPages_complete (pages : List (Option (List ProductNode))) :
    (∀ p ∈ pages, p ≠ none) →
    ∀ st : MapperState,
      (buildPages st pages).1.cacheFetched = true ∧ (buildPages st pages).2 = false := by
  induction pages with
  | nil => exact fun _ _ => ⟨rfl, rfl⟩
  | cons p t ih =>
    intro h st
    cases p with
    | none => exact absurd rfl (h none (List.mem_cons_self _ _))
    | some ps => exact ih (fun q hq => h q (List.mem_cons_of_mem _ hq)) _

/-- Claim C4, refuted on the code. After an aborted catalog build (page 1 succeeds and is
indexed, page 2 throws), the build flag is false, yet a resolution query is
answered from the partially populated maps rather than refused. -/
theorem resolver_answers_from_partial_cache :
    (buildProductCache {} [some [exProductNode], none]).2 = true ∧
    (buildProductCache {} [some [exProductNode], none]).1.cacheFetched = false ∧
    getProductIdBySku (buildProductCache {} [some [exProductNode], none]).1 (some "SKU1") =
      some "gid://shopify/Product/11" := by
  refine ⟨by decide, by decide, by decide⟩

/-- Claim C4 amended. The resolver does not guard lookups with the ready flag:
both query functions ignore `cacheFetched` entirely; a page-fetch error
aborts the build leaving the flag false and the already-indexed pages in
the maps (from which queries are then answered); an error-free build sets
the flag without throwing; and a repeated build after success is a no-op.
Atomicity of the snapshot therefore holds only by the orchestrator's call
order (the build is awaited to completion before the first lookup), not by
a guard in the resolver. -/
theorem resolver_unguarded_amended :
    (∀ (m : MapperState) (b : Bool) (k : Option String),
        getProductIdBySku { m with cacheFetched := b } k = getProductIdBySku m k ∧
        getProductDetailsBySku { m with cacheFetched := b } k = getProductDetailsBySku m k) ∧
    (∀ (st : MapperState) (ps : List ProductNode) (rest : List (Option (List ProductNode))),
        st.cacheFetched = false →
        buildProductCache st (some ps :: none :: rest) = (ps.foldl indexProduct st, true) ∧
        (ps.foldl indexProduct st).cacheFetched = false) ∧
    (∀ (st : MapperState) (pages : List (Option (List ProductNode))),
        st.cacheFetched = false → (∀ p ∈ pages, p ≠ none) →
        (buildProductCache st pages).1.cacheFetched = true ∧
        (buildProductCache st pages).2 = false) ∧
    (∀ (st : MapperState) (pages : List (Option (List ProductNode))),
        st.cacheFetched = true → buildProductCache st pages = (st, false)) := by
  refine ⟨fun m b k => ⟨rfl, rfl⟩, ?_, ?_, ?_⟩
  · intro st ps rest h
    constructor
    · simp [buildProductCache, h, buildPages]
    · rw [foldl_preserve_cacheFetched indexProduct indexProduct_cacheFetched]
      exact h
  · intro st pages h hp
    rw [buildProductCache, if_neg (by simp [h])]
    exact buildPages_complete pages hp st
  · intro st pages h
    simp [buildProductCache, h]

theorem resolver_unguarded_amended_witness :
    buildProductCache {} [some [exProductNode], none] =
      ([exProductNode].foldl indexProduct {}, true) ∧
    ([exProductNode].foldl indexProduct ({} : MapperState)).cacheFetched = false :=
  resolver_unguarded_amended.2.1 {} [exProductNode] [] rfl

theorem alGet_alUpd (l : List (String × GroupData)) (k : String) (x : Int) (k' : String) :
    alGet (alUpd l k x) k' =
      if k' = k then some (updGroup ((alGet l k).getD {}) x) else alGet l k' := by
  induction l with
  | nil =>
    simp only [alUpd, alGet]
    by_cases h : k = k'
    · subst h; simp
    · rw [if_neg h, if_neg (Ne.symm h)]
  | cons hd tl ih =>
    obtain ⟨k0, g0⟩ := hd
    simp only [alUpd]
    by_cases h0 : k0 = k
    · rw [if_pos h0]
      subst h0
      simp only [alGet, if_pos rfl]
      by_cases h : k0 = k'
      · subst h; simp
      · rw [if_neg h, if_neg (Ne.symm h), if_neg h]
    · rw [if_neg h0]
      simp only [alGet, ih]
      by_cases h1 : k0 = k'
      · subst h1
        simp [h0]
      · simp [h0, h1]

theorem statsFold_get_some (rs : List Review) (acc : List (String × GroupData)) (k : String)
    (g : GroupData) (hacc : alGet acc k = some g) :
    alGet (rs.foldl (fun a r => alUpd a (skuOf r) (ratingOf r)) acc) k =
      some ((groupRatings rs k).foldl updGroup g) := by
  induction rs generalizing acc g with
  | nil => simpa [groupRatings] using hacc
  | cons r t ih =>
    simp only [List.foldl]
    by_cases h : skuOf r = k
    · have h1 : alGet (alUpd acc (skuOf r) (ratingOf r)) k = some (updGroup g (ratingOf r)) := by
        rw [alGet_alUpd, if_pos h.symm, h, hacc]
        rfl
      rw [ih _ _ h1]
      simp [groupRatings, h]
    · have h1 : alGet (alUpd acc (skuOf r) (ratingOf r)) k = some g := by
        rw [alGet_alUpd, if_neg (fun hh => h hh.symm)]
        exact hacc
      rw [ih _ _ h1]
      simp [groupRatings, h]

theorem statsFold_get_none (rs : List Review) (acc : List (String × GroupData)) (k : String)
    (hacc : alGet acc k = none) :
    alGet (rs.foldl (fun a r => alUpd a (skuOf r) (ratingOf r)) acc) k =
      if groupRatings rs k = [] then none
      else some ((groupRatings rs k).foldl updGroup {}) := by
  induction rs generalizing acc with
  | nil => simpa [groupRatings] using hacc
  | cons r t ih =>
    simp only [List.foldl]
    by_cases h : skuOf r = k
    · have h1 : alGet (alUpd acc (skuOf r) (ratingOf r)) k = some (updGroup {} (ratingOf r)) := by
        rw [alGet_alUpd, if_pos h.symm, h, hacc]
        rfl
      rw [statsFold_get_some t _ _ _ h1]
      simp [groupRatings, h]
    · have h1 : alGet (alUpd acc (skuOf r) (ratingOf r)) k = none := by
        rw [alGet_alUpd, if_neg (fun hh => h hh.symm)]
        exact hacc
      rw [ih _ h1]
      simp [groupRatings, h]

theorem foldl_updGroup_ratings (l : List Int) (g : GroupData) :
    (l.foldl updGroup g).ratings = g.ratings ++ l := by
  induction l generalizing g with
  | nil => simp
  | cons x t ih => simp [List.foldl, ih, updGroup]

theorem foldl_updGroup_counts (l : List Int) (g : GroupData) :
    (l.foldl updGroup g).counts = l.foldl bump g.counts := by
  induction l generalizing g with
  | nil => rfl
  | cons x t ih => simp [List.foldl, ih, updGroup]

theorem bump_fields (c : StarCounts) (x : Int) :
    (bump c x).s5 = c.s5 + (if x = 5 then 1 else 0) ∧
    (bump c x).s4 = c.s4 + (if x = 4 then 1 else 0) ∧
    (bump c x).s3 = c.s3 + (if x = 3 then 1 else 0) ∧
    (bump c x).s2 = c.s2 + (if x = 2 then 1 else 0) ∧
    (bump c x).s1 = c.s1 + (if x = 1 then 1 else 0) := by
  unfold bump
  split_ifs with h1 h2 h3 h4 h5 <;> simp_all

theorem foldl_bump_counts (l : List Int) (c : StarCounts) :
    (l.foldl bump c).s5 = c.s5 + l.countP (fun x => decide (x = 5)) ∧
    (l.foldl bump c).s4 = c.s4 + l.countP (fun x => decide (x = 4)) ∧
    (l.foldl bump c).s3 = c.s3 + l.countP (fun x => decide (x = 3)) ∧
    (l.foldl bump c).s2 = c.s2 + l.countP (fun x => decide (x = 2)) ∧
    (l.foldl bump c).s1 = c.s1 + l.countP (fun x => decide (x = 1)) := by
  induction l generalizing c with
  | nil => simp
  | cons x t ih =>
    obtain ⟨i5, i4, i3, i2, i1⟩ := ih (bump c x)
    obtain ⟨b5, b4, b3, b2, b1⟩ := bump_fields c x
    simp only [List.foldl, List.countP_cons]
    refine ⟨?_, ?_, ?_, ?_, ?_⟩
    · rw [i5, b5]; by_cases hx : x = 5 <;> simp [hx] <;> omega
    · rw [i4, b4]; by_cases hx : x = 4 <;> simp [hx] <;> omega
    · rw [i3, b3]; by_cases hx : x = 3 <;> simp [hx] <;> omega
    · rw [i2, b2]; by_cases hx : x = 2 <;> simp [hx] <;> omega
    · rw [i1, b1]; by_cases hx : x = 1 <;> simp [hx] <;> omega

theorem alGet_map {α β : Type} (l : List (String × α)) (f : String → α → β) (k : String) :
    alGet (l.map (fun p => (p.1, f p.1 p.2))) k = (alGet l k).map (f k) := by
  induction l with
  | nil => rfl
  | cons hd tl ih =>
    obtain ⟨k0, v0⟩ := hd
    by_cases h : k0 = k <;> simp [alGet, h, ih]

theorem calcStats_lookup (rs : List Review) (now k : String) :
    alGet (calculateReviewStatistics rs now) k =
      if groupRatings rs k = [] then none
      else some (mkProductStats k ((groupRatings rs k).foldl updGroup {}) now) := by
  by_cases hrs : rs.isEmpty = true
  · have h0 : rs = [] := by
      cases rs with
      | nil => rfl
      | cons a t => simp [List.isEmpty] at hrs
    subst h0
    simp [calculateReviewStatistics, groupRatings, alGet]
  · unfold calculateReviewStatistics
    rw [if_neg hrs]
    show alGet (List.map (fun p => (p.1, mkProductStats p.1 p.2 now))
      (List.foldl (fun acc r => alUpd acc (skuOf r) (ratingOf r)) [] rs)) k = _
    rw [alGet_map (List.foldl (fun acc r => alUpd acc (skuOf r) (ratingOf r)) [] rs)
      (fun a b => mkProductStats a b now) k]
    rw [statsFold_get_none rs [] k rfl]
    by_cases hg : groupRatings rs k = [] <;> simp [hg]

/-- Claim C7. On ratings [5,5,4,3,1] for SKU "A" the per-entity record is exactly
totalReviews 5, averageRating 3.60, buckets (2,1,1,0,1); and in general
every record the calculator emits for a key has: the group nonempty, total
= the group's size, average = the group's rating sum divided by its size
rounded half-up to 2 decimals, and each star bucket counting exactly the
ratings equal to that star — so out-of-range ratings enter the total but
no bucket. -/
theorem per_entity_stats_correct :
    (alGet (calculateReviewStatistics exFiveReviews "T") "A" =
      some { productSku := "A", averageRating := 18/5, totalReviews := 5
             fiveStarCount := 2, fourStarCount := 1, threeStarCount := 1
             twoStarCount := 0, oneStarCount := 1, lastUpdated := "T" }) ∧
    (∀ (rs : List Review) (now k : String) (st : ProductStats),
      alGet (calculateReviewStatistics rs now) k = some st →
      groupRatings rs k ≠ [] ∧
      st.productSku = k ∧
      st.totalReviews = (groupRatings rs k).length ∧
      st.averageRating =
        toFixed2 (((groupRatings rs k).sum : ℚ) / ((groupRatings rs k).length : ℚ)) ∧
      st.fiveStarCount = (groupRatings rs k).countP (fun x => decide (x = 5)) ∧
      st.fourStarCount = (groupRatings rs k).countP (fun x => decide (x = 4)) ∧
      st.threeStarCount = (groupRatings rs k).countP (fun x => decide (x = 3)) ∧
      st.twoStarCount = (groupRatings rs k).countP (fun x => decide (x = 2)) ∧
      st.oneStarCount = (groupRatings rs k).countP (fun x => decide (x = 1))) := by
  constructor
  · rw [calcStats_lookup]
    have hg : groupRatings exFiveReviews "A" = [5, 5, 4, 3, 1] := by decide
    have hf : (([5, 5, 4, 3, 1] : List Int).foldl updGroup {}) =
        { ratings := [5, 5, 4, 3, 1]
          counts := { s5 := 2, s4 := 1, s3 := 1, s2 := 0, s1 := 1 } } := by decide
    rw [hg, if_neg (by simp), hf]
    have h2 : ⌊(721 / 2 : ℚ)⌋ = 360 := by
      rw [Int.floor_eq_iff]
      norm_num
    have h3 : toFixed2 (18 / 5) = 18 / 5 := by
      rw [toFixed2, show ((18 : ℚ) / 5 * 100 + 1 / 2) = 721 / 2 by norm_num, h2]
      norm_num
    have hs : ([5, 5, 4, 3, 1] : List Int).sum = 18 := by decide
    simp only [mkProductStats, hs]
    norm_num
    exact h3
  · intro rs now k st h
    rw [calcStats_lookup] at h
    by_cases hg : groupRatings rs k = []
    · rw [if_pos hg] at h
      exact absurd h (by simp)
    · rw [if_neg hg] at h
      obtain rfl : st = mkProductStats k ((groupRatings rs k).foldl updGroup {}) now :=
        (Option.some_inj.mp h).symm
      have hr : ((groupRatings rs k).foldl updGroup {}).ratings = groupRatings rs k := by
        rw [foldl_updGroup_ratings]
        simp
      have hc := foldl_updGroup_counts (groupRatings rs k) {}
      obtain ⟨c5, c4, c3, c2, c1⟩ := foldl_bump_counts (groupRatings rs k) ({} : StarCounts)
      have hlen : 0 < (groupRatings rs k).length := List.length_pos.mpr hg
      refine ⟨hg, rfl, ?_, ?_, ?_, ?_, ?_, ?_, ?_⟩
      · simp [mkProductStats, hr]
      · simp [mkProductStats, hr, hlen]
      · simp [mkProductStats, hc, c5]
      · simp [mkProductStats, hc, c4]
      · simp [mkProductStats, hc, c3]
      · simp [mkProductStats, hc, c2]
      · simp [mkProductStats, hc, c1]

theorem per_entity_stats_correct_witness :
    groupRatings exFiveReviews "A" ≠ [] ∧
    (mkProductStats "A" ((groupRatings exFiveReviews "A").foldl updGroup {}) "T").totalReviews =
      (groupRatings exFiveReviews "A").length := by
  have h : alGet (calculateReviewStatistics exFiveReviews "T") "A" =
      some (mkProductStats "A" ((groupRatings exFiveReviews "A").foldl updGroup {}) "T") := by
    rw [calcStats_lookup, if_neg (by decide)]
  have hmain := per_entity_stats_correct.2 exFiveReviews "T" "A" _ h
  exact ⟨hmain.1, hmain.2.2.1⟩

theorem filter_filter_of_imp {α : Type} (l : List α) (p q : α → Bool)
    (hpq : ∀ a, p a = true → q a = true) :
    (l.filter q).filter p = l.filter p := by
  induction l with
  | nil => rfl
  | cons a t ih =>
    by_cases hq : q a = true
    · by_cases hp : p a = true <;> simp [List.filter_cons, hq, hp, ih]
    · have hp : ¬p a = true := fun hh => hq (hpq a hh)
      simp [List.filter_cons, hq, hp, ih]

/-- Claim C3, refuted on the code. A brand review (association key "yotpo_site_reviews") IS
counted in a per-entity statistics record: the calculator emits a record
under the sentinel key itself (totalReviews 1 here), and the pipeline
issues exactly one per-entity statistics create keyed by the sentinel. -/
theorem brand_review_counted_in_per_entity_stats :
    (alGet (calculateReviewStatistics [exBrandReview] "T") "yotpo_site_reviews").map
      (fun s => s.totalReviews) = some 1 ∧
    (runSync [exBrandReview] createEmptyCache exEnv "T").trace.countP
      (fun e => match e with
        | Ev.create t i _ => decide (t = "yotpo_review_statistics" ∧ i = "yotpo_site_reviews")
        | _ => false) = 1 := by
  exact ⟨by decide, by decide⟩

/-- Claim C3 amended. A review whose association key is the sentinel
"yotpo_site_reviews" never receives a product_reference field (for any
product id the transformer might be handed), contributes to the global
statistics record, and is counted in per-entity statistics only under the
sentinel key itself: it appears in a per-entity record keyed
"yotpo_site_reviews", while every other key's record is unchanged by
removing all sentinel-keyed reviews. -/
theorem brand_sentinel_amended (rs : List Review) (now : String) (r : Review)
    (hr : r ∈ rs) (hsku : r.sku = some "yotpo_site_reviews") :
    (∀ (pid : Option String) (now2 : String),
      "product_reference" ∉ (transformYotpoReview r pid now2).1.map Prod.fst) ∧
    alGet (calculateReviewStatistics rs now) "yotpo_site_reviews" ≠ none ∧
    (∀ k : String, k ≠ "yotpo_site_reviews" →
      alGet (calculateReviewStatistics rs now) k =
        alGet (calculateReviewStatistics
          (rs.filter (fun x => decide (x.sku ≠ some "yotpo_site_reviews"))) now) k) ∧
    (calculateGlobalStatistics rs now).totalReviews = rs.length := by
  refine ⟨?_, ?_, ?_, ?_⟩
  · intro pid now2
    simp only [transformYotpoReview, hsku]
    by_cases he : strTruthy r.email <;> by_cases hc : strTruthy r.created_at <;>
      rcases hsen : r.sentiment with _ | sv <;> rcases hv : r.votes_up with _ | vv <;>
        simp [he, hc, hsen, hv]
  · rw [calcStats_lookup]
    have hsk : skuOf r = "yotpo_site_reviews" := by simp [skuOf, hsku]
    have hmem : r ∈ rs.filter (fun x => decide (skuOf x = "yotpo_site_reviews")) :=
      List.mem_filter.mpr ⟨hr, by simp [hsk]⟩
    have hne : groupRatings rs "yotpo_site_reviews" ≠ [] := by
      simp only [groupRatings]
      intro hh
      rw [List.map_eq_nil_iff] at hh
      rw [hh] at hmem
      exact List.not_mem_nil r hmem
    rw [if_neg hne]
    simp
  · intro k hk
    rw [calcStats_lookup, calcStats_lookup]
    have hgr : groupRatings (rs.filter (fun x => decide (x.sku ≠ some "yotpo_site_reviews"))) k =
        groupRatings rs k := by
      simp only [groupRatings]
      rw [filter_filter_of_imp]
      intro a ha
      simp only [decide_eq_true_eq] at ha ⊢
      intro hcon
      apply hk
      rw [← ha]
      simp [skuOf, hcon]
    rw [hgr]
  · by_cases hrs : rs.isEmpty = true
    · have h0 : rs = [] := by
        cases rs with
        | nil => rfl
        | cons a t => simp [List.isEmpty] at hrs
      subst h0
      rfl
    · unfold calculateGlobalStatistics
      rw [if_neg hrs]

theorem brand_sentinel_amended_witness :
    alGet (calculateReviewStatistics [exBrandReview] "T") "yotpo_site_reviews" ≠ none :=
  (brand_sentinel_amended [exBrandReview] "T" exBrandReview (by simp) rfl).2.1

/-- Claim C8. When the active set is non-empty but no active review needs sync,
the run stamps the cache's lastSync, persists the otherwise-unchanged cache
document, terminates successfully, and issues no destination operation at
all (empty trace: no create, update, find or list). -/
theorem empty_needs_sync_frame (feed : List Review) (c0 : Cache) (env : Env) (now : String)
    (hA : feed.filter shouldSyncReview ≠ [])
    (hT : (feed.filter shouldSyncReview).filter (fun r => needsSync c0 r) = []) :
    (runSync feed c0 env now).trace = [] ∧
    (runSync feed c0 env now).savedCache = some { lastSync := some now, reviews := c0.reviews } ∧
    (runSync feed c0 env now).product = {} ∧
    (runSync feed c0 env now).brand = {} ∧
    (runSync feed c0 env now).statsCreated = 0 ∧
    (runSync feed c0 env now).statsUpdated = 0 ∧
    (runSync feed c0 env now).statsErrors = 0 := by
  have h1 : (feed.filter shouldSyncReview).isEmpty = false := by
    rcases h : feed.filter shouldSyncReview with _ | ⟨a, t⟩
    · exact absurd h hA
    · rfl
  refine ⟨?_, ?_, ?_, ?_, ?_, ?_, ?_⟩ <;>
    simp [runSync, h1, hT, updateLastSyncTime]

theorem empty_needs_sync_frame_witness :
    (runSync [exReview 3 "A"] exCacheC1 exEnv "t9").trace = [] ∧
    (runSync [exReview 3 "A"] exCacheC1 exEnv "t9").savedCache =
      some { lastSync := some "t9", reviews := exCacheC1.reviews } ∧
    (runSync [exReview 3 "A"] exCacheC1 exEnv "t9").product = {} ∧
    (runSync [exReview 3 "A"] exCacheC1 exEnv "t9").brand = {} ∧
    (runSync [exReview 3 "A"] exCacheC1 exEnv "t9").statsCreated = 0 ∧
    (runSync [exReview 3 "A"] exCacheC1 exEnv "t9").statsUpdated = 0 ∧
    (runSync [exReview 3 "A"] exCacheC1 exEnv "t9").statsErrors = 0 :=
  empty_needs_sync_frame [exReview 3 "A"] exCacheC1 exEnv "t9" (by decide) (by decide)

theorem marksOf_append (a b : List Ev) : marksOf (a ++ b) = marksOf a ++ marksOf b := by
  simp [marksOf, List.filterMap_append]

theorem stepReview_ok_product (env : Env) (now : String) (st : SyncState) (r : Review)
    (p : String) (hres : getProductIdBySku env.mapper r.sku = some p)
    (hok : env.upsertRes "yotpo_product_review" r = UpsertRes.ok) :
    (stepReview true env now st r).cache = markSynced st.cache r now ∧
    marksOf (stepReview true env now st r).evs = marksOf st.evs ++ [idStr r] ∧
    (stepReview true env now st r).ps.errors = st.ps.errors ∧
    (stepReview true env now st r).ps.skipped = st.ps.skipped ∧
    (stepReview true env now st r).ps.matched = st.ps.matched + 1 ∧
    (stepReview true env now st r).ps.created + (stepReview true env now st r).ps.updated =
      st.ps.created + st.ps.updated + 1 := by
  simp only [stepReview, upsertPart, hres, hok]
  refine ⟨?_, ?_, ?_, ?_, ?_, ?_⟩ <;>
    split_ifs <;>
      simp [marksOf, List.filterMap_append] <;>
        omega

theorem stepReview_fail_product (env : Env) (now : String) (st : SyncState) (r : Review)
    (p : String) (hres : getProductIdBySku env.mapper r.sku = some p)
    (hfail : env.upsertRes "yotpo_product_review" r = UpsertRes.userErrors ∨
             env.upsertRes "yotpo_product_review" r = UpsertRes.exception) :
    (stepReview true env now st r).cache = st.cache ∧
    marksOf (stepReview true env now st r).evs = marksOf st.evs ∧
    (stepReview true env now st r).ps.errors = st.ps.errors + 1 ∧
    (stepReview true env now st r).ps.skipped = st.ps.skipped ∧
    (stepReview true env now st r).ps.matched = st.ps.matched + 1 ∧
    (stepReview true env now st r).ps.created + (stepReview true env now st r).ps.updated =
      st.ps.created + st.ps.updated := by
  rcases hfail with hf | hf <;>
  · simp only [stepReview, upsertPart, hres, hf]
    refine ⟨?_, ?_, ?_, ?_, ?_, ?_⟩ <;>
      split_ifs <;>
        simp [marksOf, List.filterMap_append]

/-- Claim C5. In a batch of three resolvable product-path reviews where exactly
the second upsert fails (validation errors or an exception), the first and
third are upserted, marked synced (the run's markSynced calls are exactly
those two, in order) and counted as created/updated, the failed one is
never marked (so, when its id is its own, its needs-sync status is exactly
what it was before the run), no review is skipped, and the error count is
exactly 1. -/
theorem partial_failure_isolation
    (r1 r2 r3 : Review) (env : Env) (now : String) (c0 : Cache)
    (ex0 : List (String × String)) (p1 p2 p3 : String) (s : SyncState)
    (h1 : getProductIdBySku env.mapper r1.sku = some p1)
    (h2 : getProductIdBySku env.mapper r2.sku = some p2)
    (h3 : getProductIdBySku env.mapper r3.sku = some p3)
    (hok1 : env.upsertRes "yotpo_product_review" r1 = UpsertRes.ok)
    (hok3 : env.upsertRes "yotpo_product_review" r3 = UpsertRes.ok)
    (hfail : env.upsertRes "yotpo_product_review" r2 = UpsertRes.userErrors ∨
             env.upsertRes "yotpo_product_review" r2 = UpsertRes.exception)
    (hs : s = processReviews true env now
      { cache := c0, existing := ex0, evs := [], ps := {} } [r1, r2, r3]) :
    s.ps.errors = 1 ∧ s.ps.created + s.ps.updated = 2 ∧ s.ps.skipped = 0 ∧
    s.ps.matched = 3 ∧ marksOf s.evs = [idStr r1, idStr r3] ∧
    (idStr r2 ≠ idStr r1 → idStr r2 ≠ idStr r3 →
      needsSync s.cache r2 = needsSync c0 r2) := by
  have hp : s = stepReview true env now
      (stepReview true env now
        (stepReview true env now
          { cache := c0, existing := ex0, evs := [], ps := {} } r1) r2) r3 := hs
  obtain ⟨c1, m1, er1, sk1, ma1, cu1⟩ :=
    stepReview_ok_product env now
      { cache := c0, existing := ex0, evs := [], ps := {} } r1 p1 h1 hok1
  obtain ⟨c2, m2, er2, sk2, ma2, cu2⟩ :=
    stepReview_fail_product env now
      (stepReview true env now { cache := c0, existing := ex0, evs := [], ps := {} } r1)
      r2 p2 h2 hfail
  obtain ⟨c3, m3, er3, sk3, ma3, cu3⟩ :=
    stepReview_ok_product env now
      (stepReview true env now
        (stepReview true env now { cache := c0, existing := ex0, evs := [], ps := {} } r1) r2)
      r3 p3 h3 hok3
  subst hp
  refine ⟨?_, ?_, ?_, ?_, ?_, ?_⟩
  · rw [er3, er2, er1]
  · rw [cu3, cu2, cu1]
    rfl
  · rw [sk3, sk2, sk1]
  · rw [ma3, ma2, ma1]
  · rw [m3, m2, m1]
    simp [marksOf]
  · intro hne21 hne23
    rw [c3, c2, c1]
    simp [needsSync, markSynced, alGet_alSet, hne21, hne23]

theorem partial_failure_isolation_witness :
    (processReviews true exEnvFail2 "t"
      { cache := createEmptyCache, existing := [], evs := [], ps := {} }
      [exReview 1 "A", exReview 2 "B", exReview 3 "C"]).ps.errors = 1 ∧
    (processReviews true exEnvFail2 "t"
      { cache := createEmptyCache, existing := [], evs := [], ps := {} }
      [exReview 1 "A", exReview 2 "B", exReview 3 "C"]).ps.created +
      (processReviews true exEnvFail2 "t"
        { cache := createEmptyCache, existing := [], evs := [], ps := {} }
        [exReview 1 "A", exReview 2 "B", exReview 3 "C"]).ps.updated = 2 ∧
    (processReviews true exEnvFail2 "t"
      { cache := createEmptyCache, existing := [], evs := [], ps := {} }
      [exReview 1 "A", exReview 2 "B", exReview 3 "C"]).ps.skipped = 0 ∧
    (processReviews true exEnvFail2 "t"
      { cache := createEmptyCache, existing := [], evs := [], ps := {} }
      [exReview 1 "A", exReview 2 "B", exReview 3 "C"]).ps.matched = 3 ∧
    marksOf (processReviews true exEnvFail2 "t"
      { cache := createEmptyCache, existing := [], evs := [], ps := {} }
      [exReview 1 "A", exReview 2 "B", exReview 3 "C"]).evs =
      [idStr (exReview 1 "A"), idStr (exReview 3 "C")] ∧
    (idStr (exReview 2 "B") ≠ idStr (exReview 1 "A") →
      idStr (exReview 2 "B") ≠ idStr (exReview 3 "C") →
      needsSync (processReviews true exEnvFail2 "t"
        { cache := createEmptyCache, existing := [], evs := [], ps := {} }
        [exReview 1 "A", exReview 2 "B", exReview 3 "C"]).cache (exReview 2 "B") =
        needsSync createEmptyCache (exReview 2 "B")) :=
  partial_failure_isolation (exReview 1 "A") (exReview 2 "B") (exReview 3 "C") exEnvFail2 "t"
    createEmptyCache [] "gid-product-1" "gid-product-1" "gid-product-1" _
    (by decide) (by decide) (by decide) (by decide) (by decide)
    (Or.inl (by decide)) rfl

/-- Claim C2, refuted on the code. On a feed whose two entries share id 1 with different
display content, the first run (against an all-accepting destination)
upserts both, marks both synced, and errs/skips nothing — yet the second
run over the identical feed and the saved cache performs another write:
the duplicate-id entries alias one cache slot, so the earlier entry's
fingerprint never matches the stored one. -/
theorem pipeline_second_run_not_idempotent_on_duplicate_ids :
    (runSync exFeedDup createEmptyCache exEnv "t1").product.errors = 0 ∧
    (runSync exFeedDup createEmptyCache exEnv "t1").product.skipped = 0 ∧
    (runSync exFeedDup createEmptyCache exEnv "t1").product.created +
      (runSync exFeedDup createEmptyCache exEnv "t1").product.updated = 2 ∧
    marksOf (runSync exFeedDup createEmptyCache exEnv "t1").trace = ["1", "1"] ∧
    (runSync exFeedDup createEmptyCache exEnv "t1").savedCache = some exCache1 ∧
    (runSync exFeedDup exCache1 exEnv "t2").product.created +
      (runSync exFeedDup exCache1 exEnv "t2").product.updated = 1 := by
  refine ⟨by decide, by decide, by decide, by decide, by decide, by decide⟩

theorem stepReview_cache_cases (b : Bool) (env : Env) (now : String) (st : SyncState)
    (r : Review) :
    (stepReview b env now st r).cache = st.cache ∨
    (stepReview b env now st r).cache = markSynced st.cache r now := by
  cases b with
  | false =>
    cases h : env.upsertRes "yotpo_brand_review" r with
    | ok => right; simp [stepReview, upsertPart, h]
    | userErrors => left; simp [stepReview, upsertPart, h]
    | exception => left; simp [stepReview, upsertPart, h]
  | true =>
    cases hres : getProductIdBySku env.mapper r.sku with
    | none => left; simp [stepReview, hres]
    | some p =>
      cases h : env.upsertRes "yotpo_product_review" r with
      | ok => right; simp [stepReview, upsertPart, hres, h]
      | userErrors => left; simp [stepReview, upsertPart, hres, h]
      | exception => left; simp [stepReview, upsertPart, hres, h]

theorem processReviews_lookup (b : Bool) (env : Env) (now : String) (rs : List Review) :
    ∀ (st : SyncState) (k : String),
      alGet (processReviews b env now st rs).cache.reviews k = alGet st.cache.reviews k ∨
      ∃ r, r ∈ rs ∧ idStr r = k ∧
        alGet (processReviews b env now st rs).cache.reviews k =
          some { hash := createReviewHash r, lastSynced := now } := by
  induction rs with
  | nil => intro st k; left; rfl
  | cons r t ih =>
    intro st k
    rcases ih (stepReview b env now st r) k with hrec | ⟨r', hr', hid', hv'⟩
    · rcases stepReview_cache_cases b env now st r with hc | hc
      · left
        show alGet (processReviews b env now (stepReview b env now st r) t).cache.reviews k = _
        rw [hrec, hc]
      · by_cases hk : idStr r = k
        · right
          refine ⟨r, List.mem_cons_self r t, hk, ?_⟩
          show alGet (processReviews b env now (stepReview b env now st r) t).cache.reviews k = _
          rw [hrec, hc, markSynced]
          simp [alGet_alSet, hk]
        · left
          show alGet (processReviews b env now (stepReview b env now st r) t).cache.reviews k = _
          rw [hrec, hc, markSynced]
          simp [alGet_alSet, Ne.symm hk]
    · exact Or.inr ⟨r', List.mem_cons_of_mem r hr', hid', hv'⟩

theorem processReviews_marked (b : Bool) (env : Env) (now : String) (rs : List Review) :
    ∀ st : SyncState,
      (∀ x ∈ rs,
        env.upsertRes (if b then "yotpo_product_review" else "yotpo_brand_review") x =
          UpsertRes.ok) →
      (∀ x ∈ rs, b = true → (getProductIdBySku env.mapper x.sku).isSome = true) →
      ∀ r ∈ rs, ∃ r', r' ∈ rs ∧ idStr r' = idStr r ∧
        alGet (processReviews b env now st rs).cache.reviews (idStr r) =
          some { hash := createReviewHash r', lastSynced := now } := by
  induction rs with
  | nil => intro st _ _ r hr; exact absurd hr (List.not_mem_nil r)
  | cons a t ih =>
    intro st hok hres r hr
    rcases List.mem_cons.mp hr with rfl | hrt
    · have hstep : alGet (stepReview b env now st r).cache.reviews (idStr r) =
          some { hash := createReviewHash r, lastSynced := now } := by
        cases b with
        | true =>
          have hres' := hres r (List.mem_cons_self r t) rfl
          rcases hq : getProductIdBySku env.mapper r.sku with _ | p
          · rw [hq] at hres'
            simp at hres'
          · have hok' := hok r (List.mem_cons_self r t)
            rw [if_pos rfl] at hok'
            simp [stepReview, upsertPart, hq, hok', markSynced, alGet_alSet]
        | false =>
          have hok' := hok r (List.mem_cons_self r t)
          rw [if_neg (by simp)] at hok'
          simp [stepReview, upsertPart, hok', markSynced, alGet_alSet]
      rcases processReviews_lookup b env now t (stepReview b env now st r) (idStr r) with
        hL | ⟨r'', hr'', hid'', hv''⟩
      · refine ⟨r, List.mem_cons_self r t, rfl, ?_⟩
        show alGet (processReviews b env now (stepReview b env now st r) t).cache.reviews
          (idStr r) = _
        rw [hL, hstep]
      · exact ⟨r'', List.mem_cons_of_mem _ hr'', hid'', hv''⟩
    · obtain ⟨r', hr', hid', hv'⟩ := ih (stepReview b env now st a)
        (fun x hx => hok x (List.mem_cons_of_mem a hx))
        (fun x hx hb => hres x (List.mem_cons_of_mem a hx) hb)
        r hrt
      exact ⟨r', List.mem_cons_of_mem a hr', hid', hv'⟩

/-- Claim C2 amended. On a feed in which id-equal entries carry equal
fingerprints (in particular, when reviews have pairwise distinct ids), if
the first run saved a cache after resolving and successfully upserting
every review that needed sync, then a second run over the identical feed
issues no destination operation at all (zero creates and updates, empty
trace) and rewrites the cache document identical to the first run's saved
document except for the top-level lastSync timestamp. -/
theorem pipeline_idempotent_amended
    (feed : List Review) (c0 : Cache) (env : Env) (t1 t2 : String) (c1 : Cache)
    (hid : ∀ r ∈ feed.filter shouldSyncReview, ∀ r' ∈ feed.filter shouldSyncReview,
      idStr r = idStr r' → createReviewHash r = createReviewHash r')
    (hok : ∀ t r, env.upsertRes t r = UpsertRes.ok)
    (hres : ∀ r ∈ (feed.filter shouldSyncReview).filter (fun r => needsSync c0 r),
      r.sku ≠ some "yotpo_site_reviews" → (getProductIdBySku env.mapper r.sku).isSome = true)
    (h1 : (runSync feed c0 env t1).savedCache = some c1) :
    (runSync feed c1 env t2).trace = [] ∧
    (runSync feed c1 env t2).savedCache = some { lastSync := some t2, reviews := c1.reviews } ∧
    (runSync feed c1 env t2).product = {} ∧
    (runSync feed c1 env t2).brand = {} ∧
    (runSync feed c1 env t2).statsCreated = 0 ∧
    (runSync feed c1 env t2).statsUpdated = 0 := by
  by_cases hA : (feed.filter shouldSyncReview).isEmpty = true
  · exfalso
    simp [runSync, hA] at h1
  · have hA' : (feed.filter shouldSyncReview).isEmpty = false := Bool.eq_false_iff.mpr hA
    have hall : ∀ r ∈ feed.filter shouldSyncReview, needsSync c1 r = false := by
      by_cases hT : ((feed.filter shouldSyncReview).filter
          (fun r => needsSync c0 r)).isEmpty = true
      · have hT0 : (feed.filter shouldSyncReview).filter (fun r => needsSync c0 r) = [] := by
          rcases hl : (feed.filter shouldSyncReview).filter (fun r => needsSync c0 r) with
            _ | ⟨x, xs⟩
          · rfl
          · rw [hl] at hT
            simp [List.isEmpty] at hT
        have hc1 : updateLastSyncTime c0 t1 = c1 := by
          have h1' := h1
          simp [runSync, hA', hT0] at h1'
          exact h1'
        intro r hr
        rw [← hc1]
        show needsSync c0 r = false
        by_cases hx : needsSync c0 r = true
        · have hmem : r ∈ (feed.filter shouldSyncReview).filter (fun r => needsSync c0 r) :=
            List.mem_filter.mpr ⟨hr, hx⟩
          rw [hT0] at hmem
          exact absurd hmem (List.not_mem_nil r)
        · exact Bool.eq_false_iff.mpr hx
      · have hT' : ((feed.filter shouldSyncReview).filter
            (fun r => needsSync c0 r)).isEmpty = false := Bool.eq_false_iff.mpr hT
        have h1' := h1
        simp only [runSync] at h1'
        rw [hA'] at h1'
        simp only [Bool.false_eq_true, if_false] at h1'
        rw [hT'] at h1'
        simp only [Bool.false_eq_true, if_false, Option.some.injEq] at h1'
        -- h1' : updateLastSyncTime s2.cache t1 = c1 for s2 the brand-path end state
        have hrev : c1.reviews = (processReviews false env t1
            { processReviews true env t1
                { cache := c0, existing := env.existing0, evs := [], ps := {} }
                (((feed.filter shouldSyncReview).filter (fun r => needsSync c0 r)).filter
                  (fun r => decide (r.sku ≠ some "yotpo_site_reviews"))) with ps := {} }
            (((feed.filter shouldSyncReview).filter (fun r => needsSync c0 r)).filter
              (fun r => decide (r.sku = some "yotpo_site_reviews")))).cache.reviews := by
          rw [← h1']
          rfl
        have hPA : ∀ x, x ∈ (((feed.filter shouldSyncReview).filter
            (fun r => needsSync c0 r)).filter
              (fun r => decide (r.sku ≠ some "yotpo_site_reviews"))) →
            x ∈ feed.filter shouldSyncReview :=
          fun x hx => (List.mem_filter.mp (List.mem_filter.mp hx).1).1
        have hBA : ∀ x, x ∈ (((feed.filter shouldSyncReview).filter
            (fun r => needsSync c0 r)).filter
              (fun r => decide (r.sku = some "yotpo_site_reviews"))) →
            x ∈ feed.filter shouldSyncReview :=
          fun x hx => (List.mem_filter.mp (List.mem_filter.mp hx).1).1
        intro r hr
        refine (needsSync_false_iff c1 r).mpr ?_
        by_cases hn : needsSync c0 r = true
        · have hrT : r ∈ (feed.filter shouldSyncReview).filter (fun r => needsSync c0 r) :=
            List.mem_filter.mpr ⟨hr, hn⟩
          by_cases hbr : r.sku = some "yotpo_site_reviews"
          · have hrB : r ∈ (((feed.filter shouldSyncReview).filter
                (fun r => needsSync c0 r)).filter
                  (fun r => decide (r.sku = some "yotpo_site_reviews"))) :=
              List.mem_filter.mpr ⟨hrT, by simp [hbr]⟩
            obtain ⟨r', hr', hid', hv'⟩ := processReviews_marked false env t1 _
              { processReviews true env t1
                  { cache := c0, existing := env.existing0, evs := [], ps := {} }
                  (((feed.filter shouldSyncReview).filter (fun r => needsSync c0 r)).filter
                    (fun r => decide (r.sku ≠ some "yotpo_site_reviews"))) with ps := {} }
              (fun x _ => hok "yotpo_brand_review" x)
              (fun x _ hb => nomatch hb)
              r hrB
            exact ⟨_, by rw [hrev]; exact hv', hid r' (hBA r' hr') r hr hid'⟩
          · have hrP : r ∈ (((feed.filter shouldSyncReview).filter
                (fun r => needsSync c0 r)).filter
                  (fun r => decide (r.sku ≠ some "yotpo_site_reviews"))) :=
              List.mem_filter.mpr ⟨hrT, by simp [hbr]⟩
            obtain ⟨r', hr', hid', hv'⟩ := processReviews_marked true env t1 _
              { cache := c0, existing := env.existing0, evs := [], ps := {} }
              (fun x _ => hok "yotpo_product_review" x)
              (fun x hx _ => hres x (List.mem_filter.mp hx).1
                (of_decide_eq_true (List.mem_filter.mp hx).2))
              r hrP
            rcases processReviews_lookup false env t1
                (((feed.filter shouldSyncReview).filter (fun r => needsSync c0 r)).filter
                  (fun r => decide (r.sku = some "yotpo_site_reviews")))
                { processReviews true env t1
                    { cache := c0, existing := env.existing0, evs := [], ps := {} }
                    (((feed.filter shouldSyncReview).filter (fun r => needsSync c0 r)).filter
                      (fun r => decide (r.sku ≠ some "yotpo_site_reviews"))) with ps := {} }
                (idStr r) with hL | ⟨r'', hr'', hid'', hv''⟩
            · exact ⟨_, by rw [hrev]; exact hL.trans hv', hid r' (hPA r' hr') r hr hid'⟩
            · exact ⟨_, by rw [hrev]; exact hv'', hid r'' (hBA r'' hr'') r hr hid''⟩
        · have hn' : needsSync c0 r = false := Bool.eq_false_iff.mpr hn
          obtain ⟨e, he, hh⟩ := (needsSync_false_iff c0 r).mp hn'
          rcases processReviews_lookup true env t1
              (((feed.filter shouldSyncReview).filter (fun r => needsSync c0 r)).filter
                (fun r => decide (r.sku ≠ some "yotpo_site_reviews")))
              { cache := c0, existing := env.existing0, evs := [], ps := {} }
              (idStr r) with hL1 | ⟨r', hr', hid', hv'⟩ <;>
            rcases processReviews_lookup false env t1
                (((feed.filter shouldSyncReview).filter (fun r => needsSync c0 r)).filter
                  (fun r => decide (r.sku = some "yotpo_site_reviews")))
                { processReviews true env t1
                    { cache := c0, existing := env.existing0, evs := [], ps := {} }
                    (((feed.filter shouldSyncReview).filter (fun r => needsSync c0 r)).filter
                      (fun r => decide (r.sku ≠ some "yotpo_site_reviews"))) with ps := {} }
                (idStr r) with hL2 | ⟨r'', hr'', hid'', hv''⟩
          · exact ⟨e, by rw [hrev]; exact hL2.trans (hL1.trans he), hh⟩
          · exact ⟨_, by rw [hrev]; exact hv'', hid r'' (hBA r'' hr'') r hr hid''⟩
          · exact ⟨_, by rw [hrev]; exact hL2.trans hv', hid r' (hPA r' hr') r hr hid'⟩
          · exact ⟨_, by rw [hrev]; exact hv'', hid r'' (hBA r'' hr'') r hr hid''⟩
    have hT2 : (feed.filter shouldSyncReview).filter (fun r => needsSync c1 r) = [] :=
      List.filter_eq_nil_iff.mpr (fun a ha hcon => by
        rw [hall a ha] at hcon
        exact absurd hcon (by decide))
    refine ⟨?_, ?_, ?_, ?_, ?_, ?_⟩ <;>
      simp [runSync, hA', hT2, updateLastSyncTime]

theorem pipeline_idempotent_amended_witness :
    (runSync exFeedOne exCache1W exEnv "t2").trace = [] ∧
    (runSync exFeedOne exCache1W exEnv "t2").savedCache =
      some { lastSync := some "t2", reviews := exCache1W.reviews } ∧
    (runSync exFeedOne exCache1W exEnv "t2").product = {} ∧
    (runSync exFeedOne exCache1W exEnv "t2").brand = {} ∧
    (runSync exFeedOne exCache1W exEnv "t2").statsCreated = 0 ∧
    (runSync exFeedOne exCache1W exEnv "t2").statsUpdated = 0 :=
  pipeline_idempotent_amended exFeedOne createEmptyCache exEnv "t1" "t2" exCache1W
    (by decide) (fun _ _ => rfl) (by decide) (by decide)
